import Mathlib

/-!
Shallow embedding of the realtime audio session manager in
`src/features/Audio/LiveConversation.tsx`.

The React component's state hooks and refs become fields of `SessionState`;
the event handlers (`startSession`, `stopSession`, and the live-session
callbacks `onopen`, `onmessage`, `onclose`, `onerror`) become pure state
transformers.  External collaborators are modelled as parameters:

* microphone acquisition (`navigator.mediaDevices.getUserMedia`) succeeds or
  throws, captured by the `micGranted : Bool` argument of `startSession`;
* the audio decoder (`decodeAudioData ∘ decode` from `utils/audioUtils`,
  a file not present under `src/`) is an oracle
  `decodeDur : String → Option ℚ` mapping a base64 payload to the decoded
  buffer's duration, `none` meaning the decode throws/rejects;
* the output context's playback clock (`currentTime`) is the `now : ℚ`
  argument of `onmessage`.

JavaScript semantics are kept: optional chaining short-circuits on
`undefined`, a property read on `undefined` throws (modelled by
`JsError.typeError`), and truthiness of a string is non-emptiness.  A throw
escaping the `onmessage` handler is modelled by the `Option JsError`
component of its result; the `SessionState` component is the state at the
point of the throw, because the handler mutates refs in place.
-/

/-- Speaker tag of a transcript entry (`'You' | 'Gemini'` in the source). -/
inductive Speaker
  | you
  | gemini
deriving DecidableEq, Repr

/-- `TranscriptionEntry` from LiveConversation.tsx lines 7-10. -/
structure TranscriptionEntry where
  speaker : Speaker
  text : String
deriving DecidableEq, Repr

/-- `inlineData` of a model-turn part; its `data` field is optional in the
SDK type. -/
structure InlineData where
  data : Option String
deriving DecidableEq, Repr

/-- One part of a model turn; `inlineData` is optional. -/
structure MsgPart where
  inlineData : Option InlineData
deriving DecidableEq, Repr

/-- `modelTurn` of a server message; its `parts` array is optional in the
SDK type. -/
structure ModelTurn where
  parts : Option (List MsgPart)
deriving DecidableEq, Repr

/-- An incremental transcription fragment (`inputTranscription` /
`outputTranscription`); its `text` field is optional. -/
structure TranscriptionFragment where
  text : Option String
deriving DecidableEq, Repr

/-- `serverContent` of a `LiveServerMessage`.  `turnComplete` is an optional
boolean in the SDK; only its truthiness is read, so it is a `Bool` here. -/
structure ServerContent where
  outputTranscription : Option TranscriptionFragment
  inputTranscription : Option TranscriptionFragment
  turnComplete : Bool
  modelTurn : Option ModelTurn
deriving DecidableEq, Repr

/-- The shape of an inbound message as read by the `onmessage` handler. -/
structure LiveServerMessage where
  serverContent : Option ServerContent
deriving DecidableEq, Repr

/-- A scheduled playback segment: the start time passed to
`source.start(...)` and the decoded buffer's duration. -/
structure AudioSegment where
  start : ℚ
  duration : ℚ
deriving DecidableEq, Repr

/-- A JavaScript exception escaping a handler: `typeError` for a property
read on `undefined` (line 99), `decodeError` for a rejected
`decodeAudioData` (line 102). -/
inductive JsError
  | typeError
  | decodeError
deriving DecidableEq, Repr

/-- The component's state hooks and refs (LiveConversation.tsx lines 13-30).
`inputCtxRef`/`outputCtxRef` record that the corresponding ref holds an
`AudioContext` object (the source never nulls these refs), while
`inputCtxOpen`/`outputCtxOpen` record that the context has not been
`close()`d.  `sessionPromise` records `sessionPromiseRef.current ≠ null`,
and `transportOpen` tracks the underlying live connection. -/
structure SessionState where
  isSessionActive : Bool
  isConnecting : Bool
  error : Option String
  transcription : List TranscriptionEntry
  sessionPromise : Bool
  transportOpen : Bool
  stream : Bool
  inputCtxRef : Bool
  inputCtxOpen : Bool
  outputCtxRef : Bool
  outputCtxOpen : Bool
  scriptProcessor : Bool
  mediaStreamSource : Bool
  nextStartTime : ℚ
  audioSources : List AudioSegment
  currentInput : String
  currentOutput : String
deriving DecidableEq, Repr

/-- The state on first render: `useState(false)`, `useState(null)`,
`useState([])`, `useRef(null)`, `useRef(0)`, `useRef(new Set())`,
`useRef('')`. -/
def initialState : SessionState where
  isSessionActive := false
  isConnecting := false
  error := none
  transcription := []
  sessionPromise := false
  transportOpen := false
  stream := false
  inputCtxRef := false
  inputCtxOpen := false
  outputCtxRef := false
  outputCtxOpen := false
  scriptProcessor := false
  mediaStreamSource := false
  nextStartTime := 0
  audioSources := []
  currentInput := ""
  currentOutput := ""

/-- The message shown when `getUserMedia` rejects (line 129). -/
def micDeniedMsg : String :=
  "Could not get microphone permissions. Please allow access and try again."

/-- The message shown by the `onerror` callback (line 117). -/
def sessionErrorMsg : String :=
  "A session error occurred. The connection may have been lost."

/-- `startSession` (lines 43-132).  `ai` is truthiness of the `ai` state
(API key configured); `micGranted` is whether `getUserMedia` resolves.  On
the granted path the stream is stored, both audio contexts are constructed
and the connect promise is stored; the transport itself opens (or fails)
later, via the `onopen` / `onerror` callbacks.  On the denied path the
`catch` block (lines 127-131) sets the error message and clears
`isConnecting`, releasing nothing because nothing was acquired. -/
def startSession (ai micGranted : Bool) (s : SessionState) : SessionState :=
  if !ai || s.isConnecting || s.isSessionActive then s
  else
    let s1 : SessionState :=
      { s with isConnecting := true, error := none, transcription := [] }
    if micGranted then
      { s1 with stream := true
                inputCtxRef := true
                inputCtxOpen := true
                outputCtxRef := true
                outputCtxOpen := true
                sessionPromise := true }
    else
      { s1 with error := some micDeniedMsg, isConnecting := false }

/-- `stopSession` (lines 134-158).  When `closePromise` is set and a session
promise is stored, a transport close is requested; then the capture pipeline
is disconnected and discarded, both contexts are closed, the microphone
tracks are stopped and the stream ref nulled, every pending source is
stopped and the set cleared, the cursor is reset to 0, and both state flags
go false.  The context refs and the session promise ref are not nulled by
the source. -/
def stopSession (closePromise : Bool) (s : SessionState) : SessionState :=
  let s :=
    if closePromise && s.sessionPromise then { s with transportOpen := false } else s
  { s with scriptProcessor := false
           mediaStreamSource := false
           inputCtxOpen := false
           outputCtxOpen := false
           stream := false
           audioSources := []
           nextStartTime := 0
           isSessionActive := false
           isConnecting := false }

/-- The `onopen` callback (lines 59-79): guards on the input context ref and
the stream, builds the capture pipeline, and flips the state flags.  The
transport is open once this callback fires. -/
def onopen (s : SessionState) : SessionState :=
  let s := { s with transportOpen := true }
  if !s.inputCtxRef || !s.stream then s
  else
    { s with mediaStreamSource := true
             scriptProcessor := true
             isConnecting := false
             isSessionActive := true }

/-- The `onclose` callback (lines 112-114): `stopSession(false)`. -/
def onclose (s : SessionState) : SessionState :=
  stopSession false s

/-- The `onerror` callback (lines 115-119): set the session error message,
then `stopSession(false)`. -/
def onerror (s : SessionState) : SessionState :=
  stopSession false { s with error := some sessionErrorMsg }

/-- The text read by `message.serverContent?.outputTranscription?.text`. -/
def msgOutputText (msg : LiveServerMessage) : Option String :=
  match msg.serverContent with
  | none => none
  | some sc =>
    match sc.outputTranscription with
    | none => none
    | some f => f.text

/-- The text read by `message.serverContent?.inputTranscription?.text`. -/
def msgInputText (msg : LiveServerMessage) : Option String :=
  match msg.serverContent with
  | none => none
  | some sc =>
    match sc.inputTranscription with
    | none => none
    | some f => f.text

/-- Truthiness of `message.serverContent?.turnComplete`. -/
def msgTurnComplete (msg : LiveServerMessage) : Bool :=
  match msg.serverContent with
  | none => false
  | some sc => sc.turnComplete

/-- Evaluation of `message.serverContent?.modelTurn?.parts[0]?.inlineData.data`
(line 99) under JavaScript semantics.  The chain short-circuits to
`undefined` when `serverContent`, `modelTurn`, or the element `parts[0]` is
`undefined`; but indexing an `undefined` `parts`, or reading `.data` when
`parts[0]` exists with `inlineData` `undefined`, throws a `TypeError`. -/
def getBase64Audio (msg : LiveServerMessage) : Except JsError (Option String) :=
  match msg.serverContent with
  | none => .ok none
  | some sc =>
    match sc.modelTurn with
    | none => .ok none
    | some mt =>
      match mt.parts with
      | none => .error .typeError
      | some ps =>
        match ps.head? with
        | none => .ok none
        | some p =>
          match p.inlineData with
          | none => .error .typeError
          | some idata => .ok idata.data

/-- Lines 81-86 of the `onmessage` handler: append each truthy
transcription fragment to the matching accumulator, output first. -/
def accumulateFragments (msg : LiveServerMessage) (s : SessionState) : SessionState :=
  let s :=
    match msgOutputText msg with
    | some t => if t = "" then s else { s with currentOutput := s.currentOutput ++ t }
    | none => s
  match msgInputText msg with
  | some t => if t = "" then s else { s with currentInput := s.currentInput ++ t }
  | none => s

/-- Lines 88-97 of the `onmessage` handler: on a truthy `turnComplete`,
finalize each non-empty accumulator into a transcript entry, `'You'` first
then `'Gemini'`, clearing it. -/
def finalizeTurn (msg : LiveServerMessage) (s : SessionState) : SessionState :=
  if msgTurnComplete msg then
    let s :=
      if s.currentInput = "" then s
      else { s with transcription := s.transcription ++ [⟨Speaker.you, s.currentInput⟩]
                    currentInput := "" }
    if s.currentOutput = "" then s
    else { s with transcription := s.transcription ++ [⟨Speaker.gemini, s.currentOutput⟩]
                  currentOutput := "" }
  else s

/-- Lines 99-110 of the `onmessage` handler: extract the audio payload
(which may throw) and, when truthy and the output context ref is set, bump
the cursor to `max(cursor, now)`, decode the payload (whose rejection
escapes with the cursor already bumped), start the source at the bumped
cursor, advance the cursor by the buffer duration and track the source. -/
def scheduleAudio (decodeDur : String → Option ℚ) (now : ℚ)
    (msg : LiveServerMessage) (s : SessionState) : Option JsError × SessionState :=
  match getBase64Audio msg with
  | .error e => (some e, s)
  | .ok none => (none, s)
  | .ok (some b64) =>
    if b64 = "" then (none, s)
    else if s.outputCtxRef then
      let start := max s.nextStartTime now
      match decodeDur b64 with
      | none => (some JsError.decodeError, { s with nextStartTime := start })
      | some d =>
        (none, { s with nextStartTime := start + d
                        audioSources := s.audioSources ++ [⟨start, d⟩] })
    else (none, s)

/-- The `onmessage` callback (lines 80-111): fragment accumulation, then
turn finalization, then audio scheduling.  A thrown `TypeError` or a
rejected decode escapes the handler: the first component is `some e` and
the second is the state at the throw point, since refs were mutated in
place. -/
def onmessage (decodeDur : String → Option ℚ) (now : ℚ)
    (msg : LiveServerMessage) (s : SessionState) : Option JsError × SessionState :=
  scheduleAudio decodeDur now msg (finalizeTurn msg (accumulateFragments msg s))

/-- Process a sequence of inbound messages, each tagged with the playback
clock at arrival.  Each callback invocation is independent, so a throw in
one handler leaves the (ref-held) state for the next message. -/
def runMessages (decodeDur : String → Option ℚ)
    (events : List (ℚ × LiveServerMessage)) (s : SessionState) : SessionState :=
  events.foldl (fun st ev => (onmessage decodeDur ev.1 ev.2 st).2) s

/-- A message carrying only an audio payload. -/
def audioMsg (b64 : String) : LiveServerMessage :=
  ⟨some ⟨none, none, false, some ⟨some [⟨some ⟨some b64⟩⟩]⟩⟩⟩

/-- A message carrying only a turn-complete signal. -/
def turnCompleteMsg : LiveServerMessage :=
  ⟨some ⟨none, none, true, none⟩⟩

/-- A message whose model turn has a first part without `inlineData`
(for example a text-only part). -/
def textPartMsg : LiveServerMessage :=
  ⟨some ⟨none, none, false, some ⟨some [⟨none⟩]⟩⟩⟩

/-- Scheduling invariant: every pending segment has non-negative duration
and ends no later than the cursor, and segments are pairwise ordered
end-before-start in scheduling order. -/
def SchedInv (s : SessionState) : Prop :=
  (∀ g ∈ s.audioSources, 0 ≤ g.duration ∧ g.start + g.duration ≤ s.nextStartTime) ∧
  s.audioSources.Pairwise (fun a b => a.start + a.duration ≤ b.start)

/-- What the claim C3 requires of a post-stop state: empty pending set,
cursor at its initial value, capture pipeline and microphone released,
session idle. -/
def StoppedClean (s : SessionState) : Prop :=
  s.audioSources = [] ∧
  s.nextStartTime = initialState.nextStartTime ∧
  s.scriptProcessor = false ∧
  s.mediaStreamSource = false ∧
  s.stream = false ∧
  s.isSessionActive = false ∧
  s.isConnecting = false

/-- No partially acquired session resources are held: no microphone stream,
no open audio context, no capture pipeline nodes, no open transport. -/
def ResourcesFree (s : SessionState) : Prop :=
  s.stream = false ∧
  s.inputCtxOpen = false ∧
  s.outputCtxOpen = false ∧
  s.scriptProcessor = false ∧
  s.mediaStreamSource = false ∧
  s.transportOpen = false

/-! ### Helper lemmas about the handler phases -/

theorem accumulateFragments_preserves (msg : LiveServerMessage) (s : SessionState) :
    (accumulateFragments msg s).audioSources = s.audioSources ∧
    (accumulateFragments msg s).nextStartTime = s.nextStartTime ∧
    (accumulateFragments msg s).outputCtxRef = s.outputCtxRef := by
  unfold accumulateFragments
  cases msgOutputText msg <;> cases msgInputText msg <;> dsimp <;>
    first
      | simp
      | (split_ifs <;> simp)

theorem finalizeTurn_preserves (msg : LiveServerMessage) (s : SessionState) :
    (finalizeTurn msg s).audioSources = s.audioSources ∧
    (finalizeTurn msg s).nextStartTime = s.nextStartTime ∧
    (finalizeTurn msg s).outputCtxRef = s.outputCtxRef := by
  unfold finalizeTurn
  by_cases h1 : msgTurnComplete msg <;>
    by_cases h2 : s.currentInput = "" <;>
      by_cases h3 : s.currentOutput = "" <;>
        simp [h1, h2, h3]

theorem schedInv_of_fields (s t : SessionState)
    (ha : t.audioSources = s.audioSources) (hn : t.nextStartTime = s.nextStartTime)
    (h : SchedInv s) : SchedInv t := by
  unfold SchedInv at h ⊢
  rw [ha, hn]
  exact h

theorem scheduleAudio_schedInv (decodeDur : String → Option ℚ) (now : ℚ)
    (msg : LiveServerMessage) (s : SessionState)
    (hd : ∀ b d, decodeDur b = some d → 0 ≤ d)
    (h : SchedInv s) : SchedInv (scheduleAudio decodeDur now msg s).2 := by
  obtain ⟨hbound, hpair⟩ := h
  unfold scheduleAudio
  cases getBase64Audio msg with
  | error e => exact ⟨hbound, hpair⟩
  | ok ob =>
    cases ob with
    | none => exact ⟨hbound, hpair⟩
    | some b64 =>
      dsimp only
      split
      · exact ⟨hbound, hpair⟩
      split
      · cases hdec : decodeDur b64 with
        | none =>
          refine ⟨fun g hg => ?_, hpair⟩
          obtain ⟨h1, h2⟩ := hbound g hg
          exact ⟨h1, le_trans h2 (le_max_left _ _)⟩
        | some d =>
          constructor
          · intro g hg
            rcases List.mem_append.1 hg with hg | hg
            · obtain ⟨h1, h2⟩ := hbound g hg
              refine ⟨h1, ?_⟩
              calc g.start + g.duration ≤ s.nextStartTime := h2
                _ ≤ max s.nextStartTime now := le_max_left _ _
                _ ≤ max s.nextStartTime now + d := le_add_of_nonneg_right (hd _ _ hdec)
            · rcases List.mem_singleton.1 hg with rfl
              exact ⟨hd _ _ hdec, le_refl _⟩
          · refine List.pairwise_append.2 ⟨hpair, List.pairwise_singleton _ _, ?_⟩
            intro a ha b hb
            rcases List.mem_singleton.1 hb with rfl
            exact le_trans (hbound a ha).2 (le_max_left _ _)
      · exact ⟨hbound, hpair⟩

theorem onmessage_schedInv (decodeDur : String → Option ℚ) (now : ℚ)
    (msg : LiveServerMessage) (s : SessionState)
    (hd : ∀ b d, decodeDur b = some d → 0 ≤ d)
    (h : SchedInv s) : SchedInv (onmessage decodeDur now msg s).2 := by
  unfold onmessage
  apply scheduleAudio_schedInv _ _ _ _ hd
  apply schedInv_of_fields s
  · rw [(finalizeTurn_preserves _ _).1, (accumulateFragments_preserves _ _).1]
  · rw [(finalizeTurn_preserves _ _).2.1, (accumulateFragments_preserves _ _).2.1]
  · exact h

theorem runMessages_schedInv (decodeDur : String → Option ℚ)
    (events : List (ℚ × LiveServerMessage)) (s : SessionState)
    (hd : ∀ b d, decodeDur b = some d → 0 ≤ d)
    (h : SchedInv s) : SchedInv (runMessages decodeDur events s) := by
  induction events generalizing s with
  | nil => exact h
  | cons ev rest ih =>
    exact ih _ (onmessage_schedInv decodeDur ev.1 ev.2 s hd h)

theorem schedInv_initialState : SchedInv initialState := by
  constructor
  · intro g hg
    simp [initialState] at hg
  · simp [initialState]

/-! ### Claim theorems -/

/-- C2: The stop operation is idempotent: for every session state and every
triggering path (with or without a transport-close request), invoking
`stopSession` twice in succession produces the same end state as invoking it
once, and the second invocation raises no error (it is a total function on
states). -/
theorem stop_idempotent (closePromise : Bool) (s : SessionState) :
    stopSession closePromise (stopSession closePromise s) = stopSession closePromise s := by
  cases closePromise <;> cases h : s.sessionPromise <;> simp [stopSession, h]

/-- C3: After any invocation of stop — whether triggered by the user
(`stopSession`), by remote closure (`onclose`), or by a transport error
(`onerror`) — the pending-segment set is empty, the playback cursor equals
its initial value, the capture pipeline (script processor and media stream
source) and the microphone stream are released, and the session state is
idle (neither active nor connecting). -/
theorem stop_releases_everything (closePromise : Bool) (s : SessionState) :
    StoppedClean (stopSession closePromise s) ∧
    StoppedClean (onclose s) ∧
    StoppedClean (onerror s) := by
  refine ⟨?_, ?_, ?_⟩ <;>
    simp [StoppedClean, stopSession, onclose, onerror, initialState]

/-- C4: Processing a turn-complete message appends exactly one `'You'` entry
when only the local (input) accumulator is non-empty, exactly one `'Gemini'`
entry when only the remote (output) accumulator is non-empty, and exactly
two entries — local before remote — when both are non-empty (the appended
block below specializes to each case), and afterwards both accumulators are
empty; the handler completes without throwing. -/
theorem turn_complete_finalizes (decodeDur : String → Option ℚ) (now : ℚ)
    (s : SessionState) :
    (onmessage decodeDur now turnCompleteMsg s).2.transcription
      = s.transcription
        ++ (if s.currentInput = "" then [] else [⟨Speaker.you, s.currentInput⟩])
        ++ (if s.currentOutput = "" then [] else [⟨Speaker.gemini, s.currentOutput⟩]) ∧
    (onmessage decodeDur now turnCompleteMsg s).2.currentInput = "" ∧
    (onmessage decodeDur now turnCompleteMsg s).2.currentOutput = "" ∧
    (onmessage decodeDur now turnCompleteMsg s).1 = none := by
  unfold onmessage scheduleAudio accumulateFragments finalizeTurn
  by_cases h2 : s.currentInput = "" <;>
    by_cases h3 : s.currentOutput = "" <;>
      simp [turnCompleteMsg, msgOutputText, msgInputText, msgTurnComplete,
        getBase64Audio, h2, h3]

/-- C5: Invoking start while a session is already connecting or active is a
no-op: the state (and with it every held resource and the existing session)
is unchanged, whatever the authorization flag or microphone outcome. -/
theorem start_busy_noop (ai micGranted : Bool) (s : SessionState)
    (h : s.isConnecting = true ∨ s.isSessionActive = true) :
    startSession ai micGranted s = s := by
  rcases h with h | h <;> simp [startSession, h]

/-- Witness for C5 at a concrete connecting state. -/
theorem start_busy_noop_witness :
    startSession true true { initialState with isConnecting := true }
      = { initialState with isConnecting := true } :=
  start_busy_noop true true { initialState with isConnecting := true } (Or.inl rfl)

/-- C9: The receive handler is not total over inbound message shapes: on a
message whose model turn has a first part without an `inlineData` field
(for example a text-only part), evaluating
`message.serverContent?.modelTurn?.parts[0]?.inlineData.data` reads a
property of `undefined` and the handler throws a `TypeError` instead of
ignoring the message. -/
theorem handler_throws_on_text_part (decodeDur : String → Option ℚ)
    (now : ℚ) (s : SessionState) :
    (onmessage decodeDur now textPartMsg s).1 = some JsError.typeError := by
  simp [onmessage, scheduleAudio, textPartMsg, getBase64Audio]

/-- C1: Over any sequence of inbound messages processed from the initial
state, the scheduled segments pairwise satisfy
`later.start ≥ earlier.start + earlier.duration` (no overlap) and their
start times are non-decreasing; moreover a single audio payload of decoded
duration `d` is scheduled exactly at `max(playback cursor, playback clock)`
and appended to the pending set.  The decoder is assumed to report
non-negative buffer durations. -/
theorem scheduled_segments_no_overlap (decodeDur : String → Option ℚ)
    (events : List (ℚ × LiveServerMessage))
    (now : ℚ) (b64 : String) (d : ℚ) (s : SessionState)
    (hd : ∀ b q, decodeDur b = some q → 0 ≤ q)
    (hb : b64 ≠ "") (hctx : s.outputCtxRef = true) (hdec : decodeDur b64 = some d) :
    (runMessages decodeDur events initialState).audioSources.Pairwise
        (fun a b => a.start + a.duration ≤ b.start) ∧
    (runMessages decodeDur events initialState).audioSources.Pairwise
        (fun a b => a.start ≤ b.start) ∧
    (onmessage decodeDur now (audioMsg b64) s).2.audioSources
        = s.audioSources ++ [⟨max s.nextStartTime now, d⟩] := by
  obtain ⟨hbound, hpair⟩ :=
    runMessages_schedInv decodeDur events initialState hd schedInv_initialState
  refine ⟨hpair, ?_, ?_⟩
  · exact hpair.imp_of_mem fun {a b} hma hmb hab =>
      le_trans (le_add_of_nonneg_right (hbound a hma).1) hab
  · simp [onmessage, scheduleAudio, accumulateFragments, finalizeTurn, audioMsg,
      msgOutputText, msgInputText, msgTurnComplete, getBase64Audio, hb, hctx, hdec]

/-- Witness for C1: two payloads of duration 2 arriving at clock 0 from the
initial state, and one payload scheduled on a live session state. -/
theorem scheduled_segments_no_overlap_witness :
    (runMessages (fun _ => some 2) [(0, audioMsg "a"), (0, audioMsg "b")]
        initialState).audioSources.Pairwise
        (fun a b => a.start + a.duration ≤ b.start) ∧
    (runMessages (fun _ => some 2) [(0, audioMsg "a"), (0, audioMsg "b")]
        initialState).audioSources.Pairwise
        (fun a b => a.start ≤ b.start) ∧
    (onmessage (fun _ => some 2) 0 (audioMsg "a")
        (onopen (startSession true true initialState))).2.audioSources
      = (onopen (startSession true true initialState)).audioSources
        ++ [⟨max (onopen (startSession true true initialState)).nextStartTime 0, 2⟩] :=
  scheduled_segments_no_overlap (fun _ => some 2) [(0, audioMsg "a"), (0, audioMsg "b")]
    0 "a" 2 (onopen (startSession true true initialState))
    (fun b q h => by injection h with h; rw [← h]; norm_num)
    (by decide) (by decide) rfl

/-- C6: From an idle state holding no session resources, a start that fails
because microphone authorization is denied leaves the microphone-permission
error visible, the session idle, and no resources held; and a start whose
transport fails to open — delivered through the `onerror` callback, the
error channel the source wires for the connection — leaves the session error
visible, the session idle, and no resources held. -/
theorem failed_start_leaves_no_resources (s : SessionState)
    (hfree : ResourcesFree s) (hc : s.isConnecting = false)
    (ha : s.isSessionActive = false) :
    ((startSession true false s).error = some micDeniedMsg ∧
     (startSession true false s).isConnecting = false ∧
     (startSession true false s).isSessionActive = false ∧
     ResourcesFree (startSession true false s)) ∧
    ((onerror (startSession true true s)).error = some sessionErrorMsg ∧
     (onerror (startSession true true s)).isConnecting = false ∧
     (onerror (startSession true true s)).isSessionActive = false ∧
     ResourcesFree (onerror (startSession true true s))) := by
  obtain ⟨h1, h2, h3, h4, h5, h6⟩ := hfree
  constructor
  · simp [startSession, ResourcesFree, hc, ha, h1, h2, h3, h4, h5, h6]
  · simp [startSession, onerror, stopSession, ResourcesFree, hc, ha, h6]

/-- Witness for C6 at the initial state. -/
theorem failed_start_leaves_no_resources_witness :
    ((startSession true false initialState).error = some micDeniedMsg ∧
     (startSession true false initialState).isConnecting = false ∧
     (startSession true false initialState).isSessionActive = false ∧
     ResourcesFree (startSession true false initialState)) ∧
    ((onerror (startSession true true initialState)).error = some sessionErrorMsg ∧
     (onerror (startSession true true initialState)).isConnecting = false ∧
     (onerror (startSession true true initialState)).isSessionActive = false ∧
     ResourcesFree (onerror (startSession true true initialState))) :=
  failed_start_leaves_no_resources initialState
    ⟨rfl, rfl, rfl, rfl, rfl, rfl⟩ rfl rfl

/-- C7 counterexample: a concrete inbound audio payload whose decode fails
makes the receive handler throw — the rejection escapes the handler rather
than being caught, contradicting the claim that no exception escapes. -/
theorem decode_failure_escapes_cex :
    (onmessage (fun _ => none) 0 (audioMsg "x")
        (onopen (startSession true true initialState))).1
      = some JsError.decodeError := by
  decide

/-- C7 amended: on a decode failure the payload is dropped (no segment is
scheduled) and the session state is otherwise unchanged apart from the
cursor bump to `max(cursor, clock)` performed before the decode, so the
session continues; but the failure is not caught or logged by the handler:
the exception escapes the receive handler as a rejected promise. -/
theorem decode_failure_drops_payload (decodeDur : String → Option ℚ)
    (now : ℚ) (b64 : String) (s : SessionState)
    (hb : b64 ≠ "") (hdec : decodeDur b64 = none) (hctx : s.outputCtxRef = true) :
    onmessage decodeDur now (audioMsg b64) s
      = (some JsError.decodeError,
         { s with nextStartTime := max s.nextStartTime now }) := by
  simp [onmessage, scheduleAudio, accumulateFragments, finalizeTurn, audioMsg,
    msgOutputText, msgInputText, msgTurnComplete, getBase64Audio, hb, hctx, hdec]

/-- Witness for the amended C7 at a concrete live state and payload. -/
theorem decode_failure_drops_payload_witness :
    onmessage (fun _ => none) 0 (audioMsg "x")
        (onopen (startSession true true initialState))
      = (some JsError.decodeError,
         { onopen (startSession true true initialState) with
             nextStartTime :=
               max (onopen (startSession true true initialState)).nextStartTime 0 }) :=
  decode_failure_drops_payload (fun _ => none) 0 "x"
    (onopen (startSession true true initialState)) (by decide) rfl (by decide)

/-- C8: Stop leaves both in-flight transcript accumulators unchanged, and a
subsequent start does not clear them either; consequently a non-empty local
accumulator carried across stop-then-start becomes the first finalized
entry of the next session's transcript at the next turn boundary. -/
theorem accumulators_survive_stop_and_start (closePromise ai micGranted : Bool)
    (decodeDur : String → Option ℚ) (now : ℚ) (s : SessionState)
    (h : s.currentInput ≠ "") :
    (stopSession closePromise s).currentInput = s.currentInput ∧
    (stopSession closePromise s).currentOutput = s.currentOutput ∧
    (startSession ai micGranted s).currentInput = s.currentInput ∧
    (startSession ai micGranted s).currentOutput = s.currentOutput ∧
    (onmessage decodeDur now turnCompleteMsg
        (onopen (startSession true true (stopSession true s)))).2.transcription.head?
      = some ⟨Speaker.you, s.currentInput⟩ := by
  have hstop : ∀ (b : Bool) (t : SessionState),
      (stopSession b t).currentInput = t.currentInput ∧
      (stopSession b t).currentOutput = t.currentOutput := by
    intro b t
    unfold stopSession
    split <;> simp
  have hstart : ∀ (a m : Bool) (t : SessionState),
      (startSession a m t).currentInput = t.currentInput ∧
      (startSession a m t).currentOutput = t.currentOutput := by
    intro a m t
    unfold startSession
    split <;> [simp; split <;> simp]
  have hcomp : onopen (startSession true true (stopSession true s)) =
      { isSessionActive := true, isConnecting := false, error := none,
        transcription := [], sessionPromise := true, transportOpen := true,
        stream := true, inputCtxRef := true, inputCtxOpen := true,
        outputCtxRef := true, outputCtxOpen := true, scriptProcessor := true,
        mediaStreamSource := true, nextStartTime := 0, audioSources := [],
        currentInput := s.currentInput, currentOutput := s.currentOutput } := by
    cases hsp : s.sessionPromise <;>
      simp [stopSession, startSession, onopen, hsp]
  refine ⟨(hstop _ _).1, (hstop _ _).2, (hstart _ _ _).1, (hstart _ _ _).2, ?_⟩
  rw [hcomp]
  by_cases hout : s.currentOutput = "" <;>
    simp [onmessage, accumulateFragments, finalizeTurn, scheduleAudio,
      turnCompleteMsg, msgOutputText, msgInputText, msgTurnComplete,
      getBase64Audio, h, hout]

/-- Witness for C8 with a pre-stop local accumulator holding "hello". -/
theorem accumulators_survive_stop_and_start_witness :
    (stopSession true { initialState with currentInput := "hello" }).currentInput
      = { initialState with currentInput := "hello" }.currentInput ∧
    (stopSession true { initialState with currentInput := "hello" }).currentOutput
      = { initialState with currentInput := "hello" }.currentOutput ∧
    (startSession true true { initialState with currentInput := "hello" }).currentInput
      = { initialState with currentInput := "hello" }.currentInput ∧
    (startSession true true { initialState with currentInput := "hello" }).currentOutput
      = { initialState with currentInput := "hello" }.currentOutput ∧
    (onmessage (fun _ => none) 0 turnCompleteMsg
        (onopen (startSession true true
          (stopSession true { initialState with currentInput := "hello" })))).2.transcription.head?
      = some ⟨Speaker.you, { initialState with currentInput := "hello" }.currentInput⟩ :=
  accumulators_survive_stop_and_start true true true (fun _ => none) 0
    { initialState with currentInput := "hello" } (by decide)

/-- C10: Every start that passes its precondition check (API key configured,
not connecting, not active) resets the visible transcript log to empty, and
the error indicator afterwards is fully determined by this start attempt
(none on success, the microphone message on denial) — entries and errors
from a previous session never survive. -/
theorem start_resets_transcript_and_error (micGranted : Bool) (s : SessionState)
    (hc : s.isConnecting = false) (ha : s.isSessionActive = false) :
    (startSession true micGranted s).transcription = [] ∧
    (startSession true micGranted s).error
      = (if micGranted then none else some micDeniedMsg) := by
  cases micGranted <;> simp [startSession, hc, ha]

/-- Witness for C10 from a state carrying a stale transcript and error. -/
theorem start_resets_transcript_and_error_witness :
    (startSession true true
        { initialState with
            transcription := [⟨Speaker.you, "stale"⟩], error := some "stale" }).transcription
      = [] ∧
    (startSession true true
        { initialState with
            transcription := [⟨Speaker.you, "stale"⟩], error := some "stale" }).error
      = (if true then none else some micDeniedMsg) :=
  start_resets_transcript_and_error true
    { initialState with transcription := [⟨Speaker.you, "stale"⟩], error := some "stale" }
    rfl rfl
